import Mathlib

/-!
Shallow embedding of the editor-adapter layer of the kie-tools fork:
  * `ServerlessWorkflowEditor.tsx` (RefForwardingServerlessWorkflowEditor),
  * the Dashbuilder editor (RefForwardingDashbuilderEditor),
  * `EnvUtil` (org.jboss.errai.common.rebind).
Pure React state is modelled as explicit records; the imperative-handle
operations become functions from state to state paired with the list of
host notifications they emit and an `Except` mirroring promise
resolution/rejection.  The underlying Monaco text widget
(SwfMonacoEditor / DashbuilderMonacoEditor) is not part of the sources;
its history behaviour is modelled from the spec where noted.
-/

/-- EditorTheme from `@kie-tools-core/editor/dist/api`. -/
inductive EditorTheme
  | LIGHT
  | DARK
  | HIGH_CONTRAST
deriving DecidableEq, Repr

/-- StateControlCommand from `@kie-tools-core/editor/dist/api`. -/
inductive StateControlCommand
  | UNDO
  | REDO
deriving DecidableEq, Repr

/-- MonacoEditorOperation from `SwfMonacoEditorApi` / `DashbuilderMonacoEditorApi`. -/
inductive MonacoEditorOperation
  | EDIT
  | UNDO
  | REDO
deriving DecidableEq, Repr

/-- KogitoEdit from `@kie-tools-core/workspace/dist/api`; the adapters build it
as `new KogitoEdit(newContent)`, so it carries the new content. -/
structure KogitoEdit where
  content : String
deriving DecidableEq, Repr

/-- Notification from `@kie-tools-core/notifications/dist/api` (only the shape
needed here: a message attached to a path). -/
structure Notification where
  path : String
  message : String
deriving DecidableEq, Repr

/-- Notifications sent from an adapter to the host channel: `props.onReady`,
`props.onNewEdit(edit)` and `props.onStateControlCommandUpdate(cmd)`. -/
inductive HostEvent
  | ready
  | newEdit (edit : KogitoEdit)
  | stateControl (cmd : StateControlCommand)
deriving DecidableEq, Repr

/-- A JavaScript-level failure of an adapter call: a rejected promise
(`Promise.reject()`), or a TypeError raised by dereferencing a null ref
through a non-null assertion (`ref.current!`). -/
inductive JsError
  | rejected
  | nullDeref
deriving DecidableEq, Repr

/-- Modelled from the spec: the Monaco text widget behind
`swfMonacoEditorRef` / `dashbuilderMonacoEditorRef` is not among the
sources; per the spec it holds the current buffer, a native undo/redo
history, and an advisory theme. -/
structure MonacoWidget where
  content : String
  undoStack : List String
  redoStack : List String
  theme : EditorTheme
deriving DecidableEq, Repr

/-- Modelled from the spec: a user edit in the widget replaces the buffer,
pushes the previous buffer on the native undo history, clears the redo
history, and fires the widget's `onContentChange(newContent, EDIT)` once. -/
def MonacoWidget.edit (w : MonacoWidget) (newContent : String) :
    MonacoWidget × (String × MonacoEditorOperation) :=
  ({ content := newContent, undoStack := w.content :: w.undoStack,
     redoStack := [], theme := w.theme },
   (newContent, MonacoEditorOperation.EDIT))

/-- Modelled from the spec: the widget's native `undo` no-ops on an empty
history and fires no change event; otherwise it restores the previous
buffer and fires `onContentChange(content, UNDO)` exactly once. -/
def MonacoWidget.undo (w : MonacoWidget) :
    MonacoWidget × Option (String × MonacoEditorOperation) :=
  match w.undoStack with
  | [] => (w, none)
  | prev :: rest =>
      ({ content := prev, undoStack := rest,
         redoStack := w.content :: w.redoStack, theme := w.theme },
       some (prev, MonacoEditorOperation.UNDO))

/-- Modelled from the spec: the widget's native `redo`, symmetric to `undo`. -/
def MonacoWidget.redo (w : MonacoWidget) :
    MonacoWidget × Option (String × MonacoEditorOperation) :=
  match w.redoStack with
  | [] => (w, none)
  | next :: rest =>
      ({ content := next, undoStack := w.content :: w.undoStack,
         redoStack := rest, theme := w.theme },
       some (next, MonacoEditorOperation.REDO))

/-- Modelled from the spec: `setTheme` applies the advisory theme to the
widget and always succeeds. -/
def MonacoWidget.setTheme (w : MonacoWidget) (t : EditorTheme) : MonacoWidget :=
  { w with theme := t }

/-- Abstraction of `Specification.Workflow` from
`@severlessworkflow/sdk-typescript` as consumed by `onContentChanged`:
whether `workflow.states` is set, and the mermaid source code that
`new MermaidDiagram(workflow).sourceCode()` yields (the diagram builder is
repository code not among the sources; modelled from the spec as an opaque
function of the parsed workflow). -/
structure Workflow where
  hasStates : Bool
  mermaidSource : String
deriving DecidableEq, Repr

/-- `Specification.Workflow.fromSource` either throws (`none`) or yields a
workflow; the embedding is parameterised by this third-party parser. -/
abbrev WorkflowParser := String → Option Workflow

namespace ServerlessWorkflowEditor

/-- React state of `RefForwardingServerlessWorkflowEditor`:
`initialContent` (originalContent/path), the mounted `SwfMonacoEditor`
(rendered iff `initialContent.path !== ""`), the `svgContainer` div ref
(its `innerHTML` when attached; the render attaches this ref to no
element), and the `diagramOutOfSync` flag. -/
structure State where
  originalContent : String
  path : String
  widget : Option MonacoWidget
  svgContainer : Option String
  diagramOutOfSync : Bool
deriving DecidableEq, Repr

/-- Initial `useState` values: empty original content and path, hence no
mounted widget; the `svgContainer` ref starts null and no rendered element
ever carries `ref={svgContainer}`. -/
def initialState : State :=
  { originalContent := "", path := "", widget := none,
    svgContainer := none, diagramOutOfSync := false }

/-- The preview part of `onContentChanged` (the `try { ... } catch` block):
parse the content, derive the mermaid source, and write it (or the
placeholder text) into the svg container; any throw inside the block —
including the TypeError from `svgContainer.current!` when the ref is
null — is caught and only sets `diagramOutOfSync`. The external
`mermaid.init`/`svgPanZoom` DOM calls have no effect on this state. -/
def previewUpdate (parse : WorkflowParser) (s : State) (newContent : String) : State :=
  match parse newContent with
  | none => { s with diagramOutOfSync := true }
  | some wf =>
      let mermaidSourceCode := if wf.hasStates then wf.mermaidSource else ""
      if mermaidSourceCode.length > 0 then
        match s.svgContainer with
        | none => { s with diagramOutOfSync := true }
        | some _ =>
            { s with svgContainer := some mermaidSourceCode,
                     diagramOutOfSync := false }
      else
        match s.svgContainer with
        | none => { s with diagramOutOfSync := true }
        | some _ =>
            { s with svgContainer := some "Create a workflow to see its preview here.",
                     diagramOutOfSync := true }

/-- `onContentChanged(newContent, operation?)`: emits at most one host
notification — `onNewEdit(new KogitoEdit(newContent))` on `EDIT`,
`onStateControlCommandUpdate(UNDO|REDO)` on `UNDO`/`REDO`, nothing when no
operation is given — then refreshes the preview. -/
def onContentChanged (parse : WorkflowParser) (s : State) (newContent : String)
    (operation : Option MonacoEditorOperation) : State × List HostEvent :=
  let events : List HostEvent :=
    match operation with
    | some MonacoEditorOperation.EDIT => [HostEvent.newEdit ⟨newContent⟩]
    | some MonacoEditorOperation.UNDO => [HostEvent.stateControl StateControlCommand.UNDO]
    | some MonacoEditorOperation.REDO => [HostEvent.stateControl StateControlCommand.REDO]
    | none => []
  (previewUpdate parse s newContent, events)

/-- `setContent(path, newContent)`: stores `{originalContent: newContent,
path}` (the `try` body cannot throw, so the promise always resolves), the
re-render mounts the `SwfMonacoEditor` with that content iff the path is
non-empty, and the `useEffect` on `initialContent` then fires
`props.onReady` followed by `onContentChanged(originalContent)` with no
operation. -/
def setContent (parse : WorkflowParser) (s : State) (path newContent : String) :
    (State × List HostEvent) × Except JsError Unit :=
  let mounted : State :=
    { s with originalContent := newContent, path := path,
             widget := if path = "" then none
                       else some { content := newContent, undoStack := [],
                                   redoStack := [], theme := EditorTheme.LIGHT } }
  let effect := onContentChanged parse mounted newContent none
  ((effect.1, HostEvent.ready :: effect.2), Except.ok ())

/-- `getContent()`: `Promise.resolve(swfMonacoEditorRef.current?.getContent() || "")` —
the widget buffer when mounted (empty buffer is falsy, still yielding ""),
the empty string otherwise; never rejects. -/
def getContent (s : State) : Except JsError String :=
  match s.widget with
  | some w => Except.ok (if w.content = "" then "" else w.content)
  | none => Except.ok ""

/-- `getPreview()`: reads `svgContainer.current!.innerHTML` and replaces
every `<br>` with `<br/>`; the non-null assertion throws a TypeError when
the ref is null. -/
def getPreview (s : State) : Except JsError String :=
  match s.svgContainer with
  | none => Except.error JsError.nullDeref
  | some html => Except.ok (html.replace "<br>" "<br/>")

/-- `undo()`: `swfMonacoEditorRef.current?.undo() || Promise.resolve()`;
an applied widget undo fires `onContentChange(content, UNDO)` which runs
`onContentChanged`; always resolves. -/
def undo (parse : WorkflowParser) (s : State) :
    (State × List HostEvent) × Except JsError Unit :=
  match s.widget with
  | none => ((s, []), Except.ok ())
  | some w =>
      match w.undo with
      | (w', none) => (({ s with widget := some w' }, []), Except.ok ())
      | (w', some (c, op)) =>
          (onContentChanged parse { s with widget := some w' } c (some op),
           Except.ok ())

/-- `redo()`: symmetric to `undo`. -/
def redo (parse : WorkflowParser) (s : State) :
    (State × List HostEvent) × Except JsError Unit :=
  match s.widget with
  | none => ((s, []), Except.ok ())
  | some w =>
      match w.redo with
      | (w', none) => (({ s with widget := some w' }, []), Except.ok ())
      | (w', some (c, op)) =>
          (onContentChanged parse { s with widget := some w' } c (some op),
           Except.ok ())

/-- `validate()`: `return []` — the explicit stub, synchronous and total. -/
def validate : Except JsError (List Notification) :=
  Except.ok []

/-- `setTheme(theme)`: `swfMonacoEditorRef.current?.setTheme(theme) || Promise.resolve()`;
no host notification, always resolves. -/
def setTheme (s : State) (t : EditorTheme) : State × Except JsError Unit :=
  ({ s with widget := s.widget.map (fun w => w.setTheme t) }, Except.ok ())

/-- A widget-driven user edit: only possible with a mounted widget; the
widget fires `onContentChange(newContent, EDIT)` once, which the adapter's
`onContentChanged` callback receives. -/
def widgetEdit (parse : WorkflowParser) (s : State) (newContent : String) :
    State × List HostEvent :=
  match s.widget with
  | none => (s, [])
  | some w =>
      let (w', ev) := w.edit newContent
      onContentChanged parse { s with widget := some w' } ev.1 (some ev.2)

/-- Whether `undo()` finds history to apply (mounted widget with a
non-empty native undo stack). -/
def hasUndo (s : State) : Bool :=
  match s.widget with
  | some w => !w.undoStack.isEmpty
  | none => false

/-- Whether `redo()` finds history to apply. -/
def hasRedo (s : State) : Bool :=
  match s.widget with
  | some w => !w.redoStack.isEmpty
  | none => false

end ServerlessWorkflowEditor

/-- Number of `onNewEdit` notifications in an emitted event list. -/
def countNewEdits (events : List HostEvent) : Nat :=
  (events.filter (fun e => match e with
    | HostEvent.newEdit _ => true
    | _ => false)).length

/-- Number of `onStateControlCommandUpdate` notifications in an emitted
event list. -/
def countStateControls (events : List HostEvent) : Nat :=
  (events.filter (fun e => match e with
    | HostEvent.stateControl _ => true
    | _ => false)).length

namespace DashbuilderEditor

/-- The `INITIAL_CONTENT` template literal of the Dashbuilder editor file:
the sample dashboard YAML that `setContent` stores instead of its
argument. -/
def INITIAL_CONTENT : String :=
  "datasets:\n" ++
  "- uuid: products\n" ++
  "  content: >-\n" ++
  "            [\n" ++
  "              [\"Computers\", \"Scanner\", 5, 3],\n" ++
  "              [\"Computers\", \"Printer\", 7, 4],\n" ++
  "              [\"Computers\", \"Laptop\", 3, 2],\n" ++
  "              [\"Electronics\", \"Camera\", 10, 7],\n" ++
  "              [\"Electronics\", \"Headphones\", 5, 9]\n" ++
  "            ]\n" ++
  "  columns:\n" ++
  "    - id: Section\n" ++
  "      type: LABEL\n" ++
  "    - id: Product\n" ++
  "      type: LABEL\n" ++
  "    - id: Quantity\n" ++
  "      type: NUMBER\n" ++
  "    - id: Quantity2\n" ++
  "      type: NUMBER\n" ++
  "pages:\n" ++
  "- components:\n" ++
  "    - html: Welcome to Dashbuilder!\n" ++
  "      properties:\n" ++
  "        font-size: xx-large\n" ++
  "        margin-bottom: 30px\n" ++
  "    - settings:\n" ++
  "        type: BARCHART\n" ++
  "        dataSetLookup:\n" ++
  "            uuid: products\n" ++
  "            group:\n" ++
  "                - columnGroup:\n" ++
  "                    source: Product\n" ++
  "                  groupFunctions:\n" ++
  "                    - source: Product\n" ++
  "                    - source: Quantity\n" ++
  "                      function: SUM\n" ++
  "                    - source: Quantity2\n" ++
  "                      function: SUM\n" ++
  "    - settings:\n" ++
  "        type: TABLE\n" ++
  "        dataSetLookup:\n" ++
  "            uuid: products"

/-- React state of `RefForwardingDashbuilderEditor`: `initialContent`
(originalContent/path), the `content` state fed to the `Dashbuilder`
preview, the mounted `DashbuilderMonacoEditor` (rendered iff
`initialContent.path !== ""`), and the `newContentRef`/`oldContentRef`
refs synchronised by the update interval. -/
structure State where
  originalContent : String
  path : String
  widget : Option MonacoWidget
  newContentRef : String
  oldContentRef : String
  content : String
deriving DecidableEq, Repr

/-- Initial `useState`/`useRef` values: `initialContent` starts at the
sample dashboard with an empty path, so no widget is mounted. -/
def initialState : State :=
  { originalContent := INITIAL_CONTENT, path := "", widget := none,
    newContentRef := "", oldContentRef := "", content := "" }

/-- One tick of the `setInterval(..., UPDATE_TIME)` effect: propagate
`newContentRef` into `oldContentRef` and the `content` state. -/
def tick (s : State) : State :=
  if s.newContentRef ≠ s.oldContentRef then
    { s with oldContentRef := s.newContentRef, content := s.newContentRef }
  else if s.content ≠ s.oldContentRef then
    { s with content := s.oldContentRef }
  else s

/-- `onContentChanged(newContent, operation?)`: emits at most one host
notification (as in the ServerlessWorkflow adapter) and records the new
content in `newContentRef`. -/
def onContentChanged (s : State) (newContent : String)
    (operation : Option MonacoEditorOperation) : State × List HostEvent :=
  let events : List HostEvent :=
    match operation with
    | some MonacoEditorOperation.EDIT => [HostEvent.newEdit ⟨newContent⟩]
    | some MonacoEditorOperation.UNDO => [HostEvent.stateControl StateControlCommand.UNDO]
    | some MonacoEditorOperation.REDO => [HostEvent.stateControl StateControlCommand.REDO]
    | none => []
  ({ s with newContentRef := newContent }, events)

/-- `setContent(path, newContent)`: stores `{originalContent:
INITIAL_CONTENT, path}` — the `newContent` parameter is not used — then
the re-render mounts the `DashbuilderMonacoEditor` with
`initialContent.originalContent` iff the path is non-empty, and the
`useEffect` fires `props.onReady` followed by
`onContentChanged(initialContent.originalContent)` with no operation; the
`try` body cannot throw, so the promise always resolves. -/
def setContent (s : State) (path _newContent : String) :
    (State × List HostEvent) × Except JsError Unit :=
  let mounted : State :=
    { s with originalContent := INITIAL_CONTENT, path := path,
             widget := if path = "" then none
                       else some { content := INITIAL_CONTENT, undoStack := [],
                                   redoStack := [], theme := EditorTheme.LIGHT } }
  let effect := onContentChanged mounted INITIAL_CONTENT none
  ((effect.1, HostEvent.ready :: effect.2), Except.ok ())

/-- `getContent()`: when the widget ref is non-null the code builds
`Promise.resolve(dashbuilderMonacoEditorRef.current?.getContent())` but
discards it; the function then returns `Promise.resolve("")` in every
state. -/
def getContent (s : State) : Except JsError String :=
  match s.widget with
  | some w =>
      let _discardedPromise := w.content
      Except.ok ""
  | none => Except.ok ""

/-- `getPreview()`: `return Promise.resolve("")` (marked TODO in the
source). -/
def getPreview (_s : State) : Except JsError String :=
  Except.ok ""

/-- `undo()`: when the widget is mounted, delegates to its native undo
(whose applied operation fires `onContentChange(content, UNDO)` once) and
then copies `getContent()` into `newContentRef`; always resolves. -/
def undo (s : State) : (State × List HostEvent) × Except JsError Unit :=
  match s.widget with
  | none => ((s, []), Except.ok ())
  | some w =>
      match w.undo with
      | (w', none) =>
          (({ s with widget := some w', newContentRef := w'.content }, []),
           Except.ok ())
      | (w', some (c, op)) =>
          let after := onContentChanged { s with widget := some w' } c (some op)
          (({ after.1 with newContentRef := w'.content }, after.2), Except.ok ())

/-- `redo()`: symmetric to `undo`. -/
def redo (s : State) : (State × List HostEvent) × Except JsError Unit :=
  match s.widget with
  | none => ((s, []), Except.ok ())
  | some w =>
      match w.redo with
      | (w', none) =>
          (({ s with widget := some w', newContentRef := w'.content }, []),
           Except.ok ())
      | (w', some (c, op)) =>
          let after := onContentChanged { s with widget := some w' } c (some op)
          (({ after.1 with newContentRef := w'.content }, after.2), Except.ok ())

/-- `validate()`: `return []` — the explicit stub, synchronous and total. -/
def validate : Except JsError (List Notification) :=
  Except.ok []

/-- `setTheme(theme)`: delegates to the widget when mounted; no host
notification, always resolves. -/
def setTheme (s : State) (t : EditorTheme) : State × Except JsError Unit :=
  ({ s with widget := s.widget.map (fun w => w.setTheme t) }, Except.ok ())

/-- A widget-driven user edit, as in the ServerlessWorkflow adapter. -/
def widgetEdit (s : State) (newContent : String) : State × List HostEvent :=
  match s.widget with
  | none => (s, [])
  | some w =>
      let (w', ev) := w.edit newContent
      onContentChanged { s with widget := some w' } ev.1 (some ev.2)

/-- Whether `undo()` finds history to apply. -/
def hasUndo (s : State) : Bool :=
  match s.widget with
  | some w => !w.undoStack.isEmpty
  | none => false

/-- Whether `redo()` finds history to apply. -/
def hasRedo (s : State) : Bool :=
  match s.widget with
  | some w => !w.redoStack.isEmpty
  | none => false

end DashbuilderEditor

namespace EnvUtil

/-- The three memoization fields of `org.jboss.errai.common.rebind.EnvUtil`:
`_isJUnitTest`, `_isDevMode`, `_isProdMode`, each a nullable `Boolean`
starting at `null`. -/
structure Caches where
  _isJUnitTest : Option Bool
  _isDevMode : Option Bool
  _isProdMode : Option Bool
deriving DecidableEq, Repr, Fintype

/-- The caches at class-initialization time: all three fields `null`. -/
def initialCaches : Caches :=
  { _isJUnitTest := none, _isDevMode := none, _isProdMode := none }

/-- `EnvUtil.isJUnitTest()`: returns the cache when set; otherwise scans
the current stack trace (abstracted to the Boolean `junitOnStack`: whether
some frame's class name starts with `com.google.gwt.junit.client.` or
`org.junit`) and caches the answer before returning it. -/
def isJUnitTest (junitOnStack : Bool) (s : Caches) : Bool × Caches :=
  match s._isJUnitTest with
  | some b => (b, s)
  | none => (junitOnStack, { s with _isJUnitTest := some junitOnStack })

/-- `EnvUtil.isDevMode()`: returns the cache when set; otherwise scans the
current stack trace (abstracted to `devOnStack`: whether some frame's
class name starts with `com.google.gwt.dev.shell.OophmSessionHandler`)
and caches the answer before returning it. -/
def isDevMode (devOnStack : Bool) (s : Caches) : Bool × Caches :=
  match s._isDevMode with
  | some b => (b, s)
  | none => (devOnStack, { s with _isDevMode := some devOnStack })

/-- `EnvUtil.isProdMode()`: returns the cache when set; otherwise computes
`!isDevMode() && !isJUnitTest()` — with Java's short-circuit `&&`, so
`isJUnitTest()` is not called when `isDevMode()` returns true — and caches
the answer before returning it. -/
def isProdMode (devOnStack junitOnStack : Bool) (s : Caches) : Bool × Caches :=
  match s._isProdMode with
  | some b => (b, s)
  | none =>
      let dev := isDevMode devOnStack s
      if dev.1 then
        (false, { dev.2 with _isProdMode := some false })
      else
        let junit := isJUnitTest junitOnStack dev.2
        (!junit.1, { junit.2 with _isProdMode := some (!junit.1) })

/-- The cache shapes reachable from `initialCaches`: whenever `_isProdMode`
has been filled in, it was computed from (and alongside) the other two
caches, so `some true` forces both predicates cached `false`, and
`some false` forces a cached `true` dev mode (short-circuit) or a cached
`false` dev mode with a cached `true` JUnit flag. -/
def consistent (s : Caches) : Bool :=
  match s._isProdMode with
  | none => true
  | some true => s._isDevMode == some false && s._isJUnitTest == some false
  | some false =>
      s._isDevMode == some true ||
        (s._isDevMode == some false && s._isJUnitTest == some true)

end EnvUtil

/-- A concrete third-party parser for closed evaluations: every content
parses to a workflow with states whose diagram source is `flowchart LR`. -/
def parseFlowchart : WorkflowParser :=
  fun _ => some { hasStates := true, mermaidSource := "flowchart LR" }

/-- A concrete third-party parser for closed evaluations: nothing parses
(`Specification.Workflow.fromSource` always throws). -/
def parseFail : WorkflowParser :=
  fun _ => none

/-- The `consistent` cache invariant holds for the initial (all-null)
caches of `EnvUtil`. -/
lemma EnvUtil.consistent_initialCaches :
    EnvUtil.consistent EnvUtil.initialCaches = true := by decide

/-- The `consistent` cache invariant of `EnvUtil` is preserved by every
call to any of the three predicates, whatever the stack trace shows. -/
lemma EnvUtil.consistent_preserved :
    ∀ (s : EnvUtil.Caches) (p q : Bool), EnvUtil.consistent s = true →
      EnvUtil.consistent (EnvUtil.isJUnitTest p s).2 = true ∧
      EnvUtil.consistent (EnvUtil.isDevMode p s).2 = true ∧
      EnvUtil.consistent (EnvUtil.isProdMode p q s).2 = true := by decide

/-- The preview refresh only touches the svg container and the
out-of-sync flag; the mounted widget is untouched. -/
lemma ServerlessWorkflowEditor.previewUpdate_widget :
    ∀ (parse : WorkflowParser) (s : ServerlessWorkflowEditor.State) (c : String),
      (ServerlessWorkflowEditor.previewUpdate parse s c).widget = s.widget := by
  intro parse s c
  unfold ServerlessWorkflowEditor.previewUpdate
  cases hp : parse c
  · rfl
  · dsimp only
    cases hs : s.svgContainer <;> simp only [hs] <;> split <;> (try split) <;> rfl

/-- `getContent` reads only the widget, so the preview refresh does not
change its answer. -/
lemma ServerlessWorkflowEditor.getContent_previewUpdate :
    ∀ (parse : WorkflowParser) (s : ServerlessWorkflowEditor.State) (c : String),
      ServerlessWorkflowEditor.getContent (ServerlessWorkflowEditor.previewUpdate parse s c) =
        ServerlessWorkflowEditor.getContent s := by
  intro parse s c
  unfold ServerlessWorkflowEditor.getContent
  rw [ServerlessWorkflowEditor.previewUpdate_widget]

/-- Claim C1 (code bug, evaluation at the failing input): on the
Dashbuilder adapter, `setContent("a.dash.yaml", "hello")` resolves, yet
the subsequent `getContent()` resolves the empty string — not `"hello"` —
so the set/get round trip fails. -/
theorem dashbuilder_roundtrip_returns_empty :
    (DashbuilderEditor.setContent DashbuilderEditor.initialState "a.dash.yaml" "hello").2 =
      Except.ok () ∧
    DashbuilderEditor.getContent
      (DashbuilderEditor.setContent DashbuilderEditor.initialState "a.dash.yaml" "hello").1.1 =
      Except.ok "" ∧
    ("hello" : String) ≠ "" := by
  refine ⟨rfl, rfl, by decide⟩

/-- Claim C2 (code bug, evaluation at the failing input): the Dashbuilder
`setContent("a.dash.yaml", "hello")` stores the given path but stores the
fixed `INITIAL_CONTENT` template — which differs from `"hello"` — instead
of the content argument, and pushes that template into the mounted
widget. -/
theorem dashbuilder_setContent_stores_fixed_template :
    (DashbuilderEditor.setContent DashbuilderEditor.initialState "a.dash.yaml" "hello").1.1.path =
      "a.dash.yaml" ∧
    (DashbuilderEditor.setContent DashbuilderEditor.initialState "a.dash.yaml" "hello").1.1.originalContent =
      DashbuilderEditor.INITIAL_CONTENT ∧
    (DashbuilderEditor.setContent DashbuilderEditor.initialState "a.dash.yaml" "hello").1.1.widget =
      some { content := DashbuilderEditor.INITIAL_CONTENT, undoStack := [],
             redoStack := [], theme := EditorTheme.LIGHT } ∧
    DashbuilderEditor.INITIAL_CONTENT ≠ "hello" := by
  refine ⟨rfl, rfl, rfl, by decide⟩

/-- Claim C3 (counterexample): a successful `setContent` on the
ServerlessWorkflow adapter emits zero `onNewEdit` notifications, not
exactly one — the post-`setContent` effect invokes `onContentChanged`
without an operation. -/
theorem swf_setContent_emits_zero_new_edits :
    (ServerlessWorkflowEditor.setContent parseFail ServerlessWorkflowEditor.initialState
        "a.sw.json" "hello").2 = Except.ok () ∧
    countNewEdits
      (ServerlessWorkflowEditor.setContent parseFail ServerlessWorkflowEditor.initialState
        "a.sw.json" "hello").1.2 = 0 := by
  exact ⟨rfl, rfl⟩

/-- Claim C3 (amended): every widget-driven edit emits exactly one
`onNewEdit` notification carrying the new content, while a successful
`setContent` emits none, on both adapters. -/
theorem widget_edit_emits_exactly_one_new_edit :
    ∀ (parse : WorkflowParser) (s : ServerlessWorkflowEditor.State)
      (d : DashbuilderEditor.State) (path c : String),
      (ServerlessWorkflowEditor.widgetEdit parse s c).2 =
        (if s.widget.isSome then [HostEvent.newEdit ⟨c⟩] else []) ∧
      (DashbuilderEditor.widgetEdit d c).2 =
        (if d.widget.isSome then [HostEvent.newEdit ⟨c⟩] else []) ∧
      countNewEdits (ServerlessWorkflowEditor.setContent parse s path c).1.2 = 0 ∧
      countNewEdits (DashbuilderEditor.setContent d path c).1.2 = 0 := by
  intro parse s d path c
  refine ⟨?_, ?_, rfl, rfl⟩
  · rcases s with ⟨oc, p, w, svg, dos⟩
    cases w <;> rfl
  · rcases d with ⟨oc, p, w, ncr, ocr, ct⟩
    cases w <;> rfl

/-- Claim C4 (counterexample): `getContent()` invoked on the uninitialized
ServerlessWorkflow adapter resolves with the empty string instead of
rejecting the call. -/
theorem swf_getContent_uninitialized_resolves_empty :
    ServerlessWorkflowEditor.getContent ServerlessWorkflowEditor.initialState =
      Except.ok "" := rfl

/-- Claim C4 (amended): `getContent` never rejects: after `setContent` the
ServerlessWorkflow adapter resolves the widget buffer (the empty string
when the empty path left the widget unmounted), the uninitialized adapter
resolves the empty string, and the Dashbuilder adapter resolves the empty
string in every state. -/
theorem getContent_never_rejects :
    ∀ (parse : WorkflowParser) (s : ServerlessWorkflowEditor.State) (path c : String)
      (d : DashbuilderEditor.State),
      ServerlessWorkflowEditor.getContent
        (ServerlessWorkflowEditor.setContent parse s path c).1.1 =
        Except.ok (if path = "" then "" else c) ∧
      ServerlessWorkflowEditor.getContent ServerlessWorkflowEditor.initialState =
        Except.ok "" ∧
      DashbuilderEditor.getContent d = Except.ok "" := by
  intro parse s path c d
  refine ⟨?_, rfl, ?_⟩
  · simp only [ServerlessWorkflowEditor.setContent, ServerlessWorkflowEditor.onContentChanged]
    rw [ServerlessWorkflowEditor.getContent_previewUpdate]
    by_cases hp : path = "" <;>
      by_cases hc : c = "" <;>
        simp [ServerlessWorkflowEditor.getContent, hp, hc]
  · rcases d with ⟨oc, p, w, ncr, ocr, ct⟩
    cases w <;> rfl

/-- Claim C5 (code bug, evaluation at the failing input): even for content
that parses into a workflow with states, `getPreview()` on the
ServerlessWorkflow adapter fails with a null dereference — the
`svgContainer` ref is attached to no rendered element, so
`svgContainer.current!.innerHTML` throws a TypeError instead of returning
a placeholder. -/
theorem swf_getPreview_throws_nullDeref :
    ServerlessWorkflowEditor.getPreview
      (ServerlessWorkflowEditor.setContent parseFlowchart ServerlessWorkflowEditor.initialState
        "a.sw.json" "workflow").1.1 =
      Except.error JsError.nullDeref := rfl

/-- Claim C6: each applied `undo`/`redo` emits exactly one matching
`StateControlCommand` (UNDO for undo, REDO for redo) and a no-op —
unmounted widget or empty native history — emits none, on both
adapters. -/
theorem undo_redo_signal_exactly_one_matching_command :
    ∀ (parse : WorkflowParser) (s : ServerlessWorkflowEditor.State)
      (d : DashbuilderEditor.State),
      (ServerlessWorkflowEditor.undo parse s).1.2 =
        (if ServerlessWorkflowEditor.hasUndo s
         then [HostEvent.stateControl StateControlCommand.UNDO] else []) ∧
      (ServerlessWorkflowEditor.redo parse s).1.2 =
        (if ServerlessWorkflowEditor.hasRedo s
         then [HostEvent.stateControl StateControlCommand.REDO] else []) ∧
      (DashbuilderEditor.undo d).1.2 =
        (if DashbuilderEditor.hasUndo d
         then [HostEvent.stateControl StateControlCommand.UNDO] else []) ∧
      (DashbuilderEditor.redo d).1.2 =
        (if DashbuilderEditor.hasRedo d
         then [HostEvent.stateControl StateControlCommand.REDO] else []) := by
  intro parse s d
  refine ⟨?_, ?_, ?_, ?_⟩
  · rcases s with ⟨oc, p, w, svg, dos⟩
    rcases w with _ | ⟨wc, us, rs, th⟩
    · rfl
    · cases us <;> rfl
  · rcases s with ⟨oc, p, w, svg, dos⟩
    rcases w with _ | ⟨wc, us, rs, th⟩
    · rfl
    · cases rs <;> rfl
  · rcases d with ⟨oc, p, w, ncr, ocr, ct⟩
    rcases w with _ | ⟨wc, us, rs, th⟩
    · rfl
    · cases us <;> rfl
  · rcases d with ⟨oc, p, w, ncr, ocr, ct⟩
    rcases w with _ | ⟨wc, us, rs, th⟩
    · rfl
    · cases rs <;> rfl

/-- Claim C7 (code bug): `undo`, `redo`, `validate` and `setTheme` always
resolve in every adapter state — including before any content is set — on
both adapters; but the claim's closing clause fails: `getPreview` on the
ServerlessWorkflow adapter also fails the caller (null `svgContainer`
dereference), so setContent/getContent are not the only operations that
can fail. -/
theorem other_operations_always_succeed_but_getPreview_fails :
    (∀ (parse : WorkflowParser) (s : ServerlessWorkflowEditor.State) (t : EditorTheme),
      (ServerlessWorkflowEditor.undo parse s).2 = Except.ok () ∧
      (ServerlessWorkflowEditor.redo parse s).2 = Except.ok () ∧
      ServerlessWorkflowEditor.validate = Except.ok [] ∧
      (ServerlessWorkflowEditor.setTheme s t).2 = Except.ok ()) ∧
    (∀ (d : DashbuilderEditor.State) (t : EditorTheme),
      (DashbuilderEditor.undo d).2 = Except.ok () ∧
      (DashbuilderEditor.redo d).2 = Except.ok () ∧
      DashbuilderEditor.validate = Except.ok [] ∧
      (DashbuilderEditor.setTheme d t).2 = Except.ok ()) ∧
    ServerlessWorkflowEditor.getPreview ServerlessWorkflowEditor.initialState =
      Except.error JsError.nullDeref := by
  refine ⟨?_, ?_, rfl⟩
  · intro parse s t
    refine ⟨?_, ?_, rfl, rfl⟩
    · rcases s with ⟨oc, p, w, svg, dos⟩
      rcases w with _ | ⟨wc, us, rs, th⟩
      · rfl
      · cases us <;> rfl
    · rcases s with ⟨oc, p, w, svg, dos⟩
      rcases w with _ | ⟨wc, us, rs, th⟩
      · rfl
      · cases rs <;> rfl
  · intro d t
    refine ⟨?_, ?_, rfl, rfl⟩
    · rcases d with ⟨oc, p, w, ncr, ocr, ct⟩
      rcases w with _ | ⟨wc, us, rs, th⟩
      · rfl
      · cases us <;> rfl
    · rcases d with ⟨oc, p, w, ncr, ocr, ct⟩
      rcases w with _ | ⟨wc, us, rs, th⟩
      · rfl
      · cases rs <;> rfl

/-- Claim C8: `setTheme` is idempotent on both adapters — applying the
same theme twice leaves the adapter state identical to applying it
once. -/
theorem setTheme_idempotent :
    ∀ (t : EditorTheme) (s : ServerlessWorkflowEditor.State) (d : DashbuilderEditor.State),
      (ServerlessWorkflowEditor.setTheme (ServerlessWorkflowEditor.setTheme s t).1 t).1 =
        (ServerlessWorkflowEditor.setTheme s t).1 ∧
      (DashbuilderEditor.setTheme (DashbuilderEditor.setTheme d t).1 t).1 =
        (DashbuilderEditor.setTheme d t).1 := by
  intro t s d
  constructor
  · rcases s with ⟨oc, p, w, svg, dos⟩
    cases w <;> rfl
  · rcases d with ⟨oc, p, w, ncr, ocr, ct⟩
    cases w <;> rfl

/-- Claim C9: the Dashbuilder `getContent()` resolves to the empty string
in every state — even with a mounted widget holding non-empty content —
because the promise of the widget's content is created but never
returned. -/
theorem dashbuilder_getContent_always_empty :
    ∀ (d : DashbuilderEditor.State), DashbuilderEditor.getContent d = Except.ok "" := by
  intro d
  rcases d with ⟨oc, p, w, ncr, ocr, ct⟩
  cases w <;> rfl

/-- Claim C10: on every cache state reachable from class initialization
(`consistent`), `isProdMode()` returns true exactly when the subsequent
`isDevMode()` and `isJUnitTest()` calls both return false — whatever the
stack traces show at each call — and all three predicates are memoized:
a repeated call returns the first call's boolean regardless of any change
in the probed environment. -/
theorem envUtil_isProdMode_iff_and_memoized :
    ∀ (s : EnvUtil.Caches) (dp jp dp2 jp2 p q : Bool),
      EnvUtil.consistent s = true →
      ((EnvUtil.isProdMode dp jp s).1 = true ↔
        ((EnvUtil.isDevMode dp2 (EnvUtil.isProdMode dp jp s).2).1 = false ∧
         (EnvUtil.isJUnitTest jp2 (EnvUtil.isProdMode dp jp s).2).1 = false)) ∧
      (EnvUtil.isJUnitTest q (EnvUtil.isJUnitTest p s).2).1 =
        (EnvUtil.isJUnitTest p s).1 ∧
      (EnvUtil.isDevMode q (EnvUtil.isDevMode p s).2).1 =
        (EnvUtil.isDevMode p s).1 ∧
      (EnvUtil.isProdMode dp2 jp2 (EnvUtil.isProdMode dp jp s).2).1 =
        (EnvUtil.isProdMode dp jp s).1 := by
  decide

/-- Witness for claim C10: the theorem applied to the initial (all-null)
caches in a production-like environment, with the probed environment
flipped between calls. -/
theorem envUtil_isProdMode_iff_and_memoized_witness :
    ((EnvUtil.isProdMode false false EnvUtil.initialCaches).1 = true ↔
      ((EnvUtil.isDevMode true (EnvUtil.isProdMode false false EnvUtil.initialCaches).2).1 = false ∧
       (EnvUtil.isJUnitTest true (EnvUtil.isProdMode false false EnvUtil.initialCaches).2).1 = false)) ∧
    (EnvUtil.isJUnitTest false (EnvUtil.isJUnitTest true EnvUtil.initialCaches).2).1 =
      (EnvUtil.isJUnitTest true EnvUtil.initialCaches).1 ∧
    (EnvUtil.isDevMode false (EnvUtil.isDevMode true EnvUtil.initialCaches).2).1 =
      (EnvUtil.isDevMode true EnvUtil.initialCaches).1 ∧
    (EnvUtil.isProdMode true true (EnvUtil.isProdMode false false EnvUtil.initialCaches).2).1 =
      (EnvUtil.isProdMode false false EnvUtil.initialCaches).1 :=
  envUtil_isProdMode_iff_and_memoized EnvUtil.initialCaches false false true true true false
    (by decide)
